import Mathlib

/-!
Verification of the RoadVLM response-parsing core.

Shallow embedding of the parsing and validation code of
`src/utils/data_types.py`, `src/core/model.py` and
`src/core/scene_analyzer.py`.  Python floats are modelled as exact
rationals (`ℚ`); Python's `int(...)` truncation is `pyInt`; JSON values
are modelled by `Raw*` structures whose `Option` fields encode missing
keys; exceptions become `Option`/`Except` results.
-/

/-- Driving actions (`ActionType` in `src/utils/data_types.py`). -/
inductive ActionType where
  | STOP | CONTINUE | TURN_LEFT | TURN_RIGHT | SLOW_DOWN
deriving DecidableEq

/-- Conversion `ActionType(value)`: Python `Enum` lookup by value is
case-sensitive; an unknown value raises `ValueError`, modelled as `none`. -/
def ActionType.ofString : String → Option ActionType
  | "STOP" => some .STOP
  | "CONTINUE" => some .CONTINUE
  | "TURN_LEFT" => some .TURN_LEFT
  | "TURN_RIGHT" => some .TURN_RIGHT
  | "SLOW_DOWN" => some .SLOW_DOWN
  | _ => none

/-- Detected-object categories (`ObjectType` in `src/utils/data_types.py`). -/
inductive ObjectType where
  | vehicle | pedestrian | traffic_light | traffic_sign | bus | car
deriving DecidableEq

/-- Conversion `ObjectType(value)`; unknown values raise `ValueError`. -/
def ObjectType.ofString : String → Option ObjectType
  | "vehicle" => some .vehicle
  | "pedestrian" => some .pedestrian
  | "traffic_light" => some .traffic_light
  | "traffic_sign" => some .traffic_sign
  | "bus" => some .bus
  | "car" => some .car
  | _ => none

/-- Traffic-light states (`TrafficLightState` in `src/utils/data_types.py`). -/
inductive TrafficLightState where
  | red | yellow | green
deriving DecidableEq

/-- Weather conditions (`WeatherCondition` in `src/utils/data_types.py`). -/
inductive WeatherCondition where
  | clear | rainy | snowy | foggy | cloudy
deriving DecidableEq

/-- Conversion `WeatherCondition(value)`; unknown values raise `ValueError`. -/
def WeatherCondition.ofString : String → Option WeatherCondition
  | "clear" => some .clear
  | "rainy" => some .rainy
  | "snowy" => some .snowy
  | "foggy" => some .foggy
  | "cloudy" => some .cloudy
  | _ => none

/-- Bounding box (`BoundingBox` in `src/utils/data_types.py`): four `int`
fields.  The pydantic model declares no constraint on any field (each
`Field(...)` carries only a description), so any integers are accepted. -/
structure BoundingBox where
  x_min : ℤ
  y_min : ℤ
  x_max : ℤ
  y_max : ℤ
deriving DecidableEq

/-- Pydantic construction of a `BoundingBox`: the model has no validators
and no field constraints, so construction succeeds on any four integers. -/
def BoundingBox.construct (a b c d : ℤ) : Option BoundingBox :=
  some ⟨a, b, c, d⟩

/-- Derived width property (`x_max - x_min`). -/
def BoundingBox.width (b : BoundingBox) : ℤ := b.x_max - b.x_min

/-- Derived height property (`y_max - y_min`). -/
def BoundingBox.height (b : BoundingBox) : ℤ := b.y_max - b.y_min

/-- Detected object (`DetectedObject` in `src/utils/data_types.py`).
The optional free-form `metadata` mapping is omitted: no claim and no
parsing code path ever sets or reads it. -/
structure DetectedObject where
  type : ObjectType
  bbox : BoundingBox
  confidence : ℚ
  state : Option TrafficLightState
deriving DecidableEq

/-- Pydantic construction of a `DetectedObject`: the `confidence` field is
declared `Field(..., ge=0.0, le=1.0)`, so construction fails (raises
`ValidationError`, a subclass of `ValueError`) outside `[0,1]` and stores
the value unchanged inside it. -/
def DetectedObject.construct (t : ObjectType) (b : BoundingBox) (c : ℚ)
    (s : Option TrafficLightState) : Option DetectedObject :=
  if 0 ≤ c ∧ c ≤ 1 then some ⟨t, b, c, s⟩ else none

/-- Driving-action prediction (`Prediction` in `src/utils/data_types.py`);
the optional metadata mapping is omitted as for `DetectedObject`. -/
structure Prediction where
  action : ActionType
  confidence : ℚ
deriving DecidableEq

/-- Pydantic construction of a `Prediction`: `confidence` is declared
`Field(..., ge=0.0, le=1.0)`. -/
def Prediction.construct (a : ActionType) (c : ℚ) : Option Prediction :=
  if 0 ≤ c ∧ c ≤ 1 then some ⟨a, c⟩ else none

/-- Scene context (`SceneContext` in `src/utils/data_types.py`):
`time_of_day` is a string constrained by the pydantic pattern
`^(day|night|dawn|dusk)$`, `road_type` an unconstrained string. -/
structure SceneContext where
  weather : WeatherCondition
  time_of_day : String
  road_type : String
deriving DecidableEq

/-- The pydantic pattern `^(day|night|dawn|dusk)$` on `time_of_day`. -/
def timeOfDayOk (s : String) : Bool :=
  s = "day" || s = "night" || s = "dawn" || s = "dusk"

/-- Pydantic construction of a `SceneContext`: only the `time_of_day`
pattern can fail. -/
def SceneContext.construct (w : WeatherCondition) (t r : String) :
    Option SceneContext :=
  if timeOfDayOk t then some ⟨w, t, r⟩ else none

/-- Modelled from the spec: the `Direction` record is imported by
`src/core/model.py` from `src/utils/data_types.py` but its class is
missing from that file.  Per spec §3 it carries `angle`, `type` and
`confidence`; per §4.2(c) and §9 the source applies no range validation
or normalization to `angle`. -/
structure Direction where
  angle : ℚ
  type : ActionType
  confidence : ℚ
deriving DecidableEq

/-- Modelled from the spec: construction of a `Direction`.  The shared
confidence invariant of spec §3 bounds `confidence` to `[0,1]`; `angle`
is unvalidated (spec §4.2(c), §9: "the source leaves this unvalidated"). -/
def Direction.construct (a : ℚ) (t : ActionType) (c : ℚ) : Option Direction :=
  if 0 ≤ c ∧ c ≤ 1 then some ⟨a, t, c⟩ else none

/-- Python `int(q)` on an exact rational: truncation toward zero. -/
def pyInt (q : ℚ) : ℤ :=
  if 0 ≤ q then ⌊q⌋ else ⌈q⌉

/-- Python regex class `\s` (ASCII range). -/
def pySpace (c : Char) : Bool :=
  c = ' ' || c = '\t' || c = '\n' || c = '\x0d' || c = '\x0b' || c = '\x0c'

/-- Python regex class `\w` (ASCII range). -/
def pyWord (c : Char) : Bool :=
  c.isAlphanum || c = '_'

/-- Longest leading run of decimal digits and the remaining characters
(the greedy `\d+`, which never needs to give characters back here since
nothing follows it in the patterns). -/
def takeDigits : List Char → List Char × List Char
  | [] => ([], [])
  | c :: cs =>
    if c.isDigit then
      let p := takeDigits cs
      (c :: p.1, p.2)
    else ([], c :: cs)

/-- Numeric value of a digit string, most significant first. -/
def natOfDigits (ds : List Char) : ℕ :=
  ds.foldl (fun a c => 10 * a + (c.toNat - 48)) 0

/-- Value of the decimal fraction `.d₁…dₙ` as a rational. -/
def fracOfDigits (ds : List Char) : ℚ :=
  (natOfDigits ds : ℚ) / (10 : ℚ) ^ ds.length

/-- Match of the regex group `(0?\.\d+|1\.0|1)` at the head of the input,
returning `float` of the matched text.  Alternatives are tried left to
right as in Python: `0?\.\d+` (an optional `0`, a dot, then at least one
digit, the digits greedy), then the literal `1.0`, then the literal `1`. -/
def tryNum : List Char → Option ℚ
  | '0' :: '.' :: rest =>
    let ds := (takeDigits rest).1
    if ds.isEmpty then none else some (fracOfDigits ds)
  | '.' :: rest =>
    let ds := (takeDigits rest).1
    if ds.isEmpty then none else some (fracOfDigits ds)
  | '1' :: '.' :: '0' :: _ => some 1
  | '1' :: _ => some 1
  | _ => none

/-- Match of `(\d+)` at the head of the input, as a natural number
(`float` of an all-digit string is exact). -/
def tryNat (cs : List Char) : Option ℕ :=
  let ds := (takeDigits cs).1
  if ds.isEmpty then none else some (natOfDigits ds)

/-- Match of `(\w+)` at the head of the input. -/
def tryWord (cs : List Char) : Option String :=
  let ws := cs.takeWhile pyWord
  if ws.isEmpty then none else some (String.mk ws)

/-- Model of `re.search` for the patterns `LIT\s*(GROUP)` used in
`src/core/model.py`: scan left to right for an occurrence of the literal
`lit` after which, past maximal whitespace, the group parser `k`
matches.  Backtracking into `\s*` never helps because no group
alternative starts with a whitespace character, so taking the maximal
whitespace run is exact. -/
def reSearch (lit : List Char) (k : List Char → Option α) :
    List Char → Option α
  | [] => none
  | c :: rest =>
    match
      (if lit.isPrefixOf (c :: rest) then
        k (((c :: rest).drop lit.length).dropWhile pySpace)
      else none) with
    | some v => some v
    | none => reSearch lit k rest

/-- The search `re.search(r"Confidence:\s*(0?\.\d+|1\.0|1)", content)`
followed by `float(...)` of the captured group, shared by
`Model._parse_action_response` and `Model._parse_direction`. -/
def searchConfidence (cs : List Char) : Option ℚ :=
  reSearch ("Confidence:".data) tryNum cs

/-- The search `re.search(r"Action:\s*(\w+)", content)`. -/
def searchActionWord (cs : List Char) : Option String :=
  reSearch ("Action:".data) tryWord cs

/-- The search `re.search(r"Angle:\s*(\d+)", content)` followed by
`float(...)` of the captured group, from `Model._parse_direction`. -/
def searchAngle (cs : List Char) : Option ℕ :=
  reSearch ("Angle:".data) tryNat cs

/-- Error values observed at the parsing core's boundary, mirroring the
exception classes the source raises: `ResponseParsingError`
(`src/core/model.py`), `ValueError` from an enum lookup, pydantic
`ValidationError`, and `SceneAnalysisError` for the missing `context`
key (`src/core/scene_analyzer.py`).  The spec's taxonomy names these
`MalformedResponse`, `InvalidEnumValue`, `InvalidConfidence` and
`MalformedResponse` respectively. -/
inductive ParseError where
  | responseParsing | invalidEnum | validation | missingContext
deriving DecidableEq

deriving instance DecidableEq for Except

/-- The parser `Model._parse_action_response`: regex extraction of the
action word and the confidence number, then `Prediction` construction. -/
def parseActionResponse (content : String) : Except ParseError Prediction :=
  match searchActionWord content.data, searchConfidence content.data with
  | some act, some conf =>
    match ActionType.ofString act with
    | none => .error .invalidEnum
    | some a =>
      match Prediction.construct a conf with
      | none => .error .validation
      | some p => .ok p
  | _, _ => .error .responseParsing

/-- The parser `Model._parse_direction`: regex extraction of angle,
action word and confidence, then `Direction` construction (the
`Direction` record itself is modelled from the spec, see above). -/
def parseDirection (content : String) : Except ParseError Direction :=
  match searchAngle content.data, searchActionWord content.data,
      searchConfidence content.data with
  | some ang, some act, some conf =>
    match ActionType.ofString act with
    | none => .error .invalidEnum
    | some a =>
      match Direction.construct (ang : ℚ) a conf with
      | none => .error .validation
      | some d => .ok d
  | _, _, _ => .error .responseParsing

/-- The geometric bounding-box check `SceneAnalyzer._validate_bbox`:
exactly four coordinates, all in `[0,1]`, `bbox[0] < bbox[2]` and
`bbox[1] < bbox[3]`, width and height at least `0.01` and at most
`0.9`.  A length-4 list is matched positionally, mirroring the source's
`len(bbox) != 4` guard followed by indexing. -/
def validateBbox : List ℚ → Bool
  | [b0, b1, b2, b3] =>
    if 0 ≤ b0 ∧ b0 ≤ 1 ∧ 0 ≤ b1 ∧ b1 ≤ 1 ∧ 0 ≤ b2 ∧ b2 ≤ 1 ∧ 0 ≤ b3 ∧ b3 ≤ 1 then
      if b0 < b2 ∧ b1 < b3 then
        if b2 - b0 < 1 / 100 ∨ b3 - b1 < 1 / 100 then false
        else if b2 - b0 > 9 / 10 ∨ b3 - b1 > 9 / 10 then false
        else true
      else false
    else false
  | _ => false

/-- One entry of the scene-analysis `objects` array, as a JSON dict.
An `Option` field models presence of the corresponding key (`obj["type"]`,
`obj["bbox"]`, `obj["confidence"]`); a missing key raises `KeyError`,
which `_parse_objects` catches. -/
structure RawObject where
  type? : Option String
  bbox? : Option (List ℚ)
  confidence? : Option ℚ
deriving DecidableEq

/-- The scene-analysis `context` object: string values for the keys
`weather`, `time` and `road`. -/
structure RawContext where
  weather : String
  time : String
  road : String
deriving DecidableEq

/-- The parsed top-level scene-analysis JSON object: an `Option` field
models presence of the `objects` and `context` keys. -/
structure RawResponse where
  objects? : Option (List RawObject)
  context? : Option RawContext
deriving DecidableEq

/-- Processing of one `objects` entry inside the loop of
`SceneAnalyzer._parse_objects`: `obj["bbox"]` is validated with
`_validate_bbox` (an invalid bbox skips the entry), then the
`DetectedObject` is built from `ObjectType(obj["type"])`, the bbox
coordinates multiplied by 1000 and truncated with `int(...)`, and
`float(obj["confidence"])`; `KeyError` and `ValueError` (including the
enum lookups and pydantic's `ValidationError`) are caught and skip the
entry, modelled as `none`. -/
def parseEntry (o : RawObject) : Option DetectedObject :=
  match o.bbox? with
  | none => none
  | some b =>
    if validateBbox b then
      match b with
      | b0 :: b1 :: b2 :: b3 :: _ =>
        match o.type?, o.confidence? with
        | some ts, some c =>
          match ObjectType.ofString ts with
          | none => none
          | some t =>
            DetectedObject.construct t
              ⟨pyInt (b0 * 1000), pyInt (b1 * 1000),
               pyInt (b2 * 1000), pyInt (b3 * 1000)⟩ c none
        | _, _ => none
      | _ => none
    else none

/-- The loop of `SceneAnalyzer._parse_objects`: accepted entries are
appended in input order, skipped entries leave no trace. -/
def parseObjects : List RawObject → List DetectedObject
  | [] => []
  | o :: rest =>
    match parseEntry o with
    | some d => d :: parseObjects rest
    | none => parseObjects rest

/-- The key-presence logic of `SceneAnalyzer._parse_response`: a missing
`objects` key is replaced by an empty list, a missing `context` key
raises `SceneAnalysisError("Missing required 'context' field")`. -/
def parseResponse (r : RawResponse) :
    Except ParseError (List RawObject × RawContext) :=
  match r.context? with
  | none => .error .missingContext
  | some ctx => .ok (r.objects?.getD [], ctx)

/-- Python `str.lower()` (ASCII range), written over the character list
so that it evaluates by kernel reduction. -/
def pyLower (s : String) : String := String.mk (s.data.map Char.toLower)

/-- Python `str.strip()` (ASCII whitespace), written over the character
list so that it evaluates by kernel reduction. -/
def pyStrip (s : String) : String :=
  String.mk (((s.data.dropWhile pySpace).reverse.dropWhile pySpace).reverse)

/-- The parser `SceneAnalyzer._parse_context`:
`WeatherCondition(context_data["weather"].lower())` (a `ValueError` on an
unknown value), `context_data["time"].lower()` (checked against the
pydantic pattern of `SceneContext.time_of_day`), and
`context_data["road"].strip()`. -/
def parseContext (c : RawContext) : Except ParseError SceneContext :=
  match WeatherCondition.ofString (pyLower c.weather) with
  | none => .error .invalidEnum
  | some w =>
    match SceneContext.construct w (pyLower c.time) (pyStrip c.road) with
    | none => .error .validation
    | some sc => .ok sc

/-- The bbox-rescaling loop at the end of `SceneAnalyzer.analyze`: when
an `image_size` target `(width, height)` is supplied, each stored
bbox coordinate is replaced by `int(coord * dimension / 1000)`, the
x-coordinates scaled by the width and the y-coordinates by the height;
with no target the object list is returned as is. -/
def applyImageSize (size? : Option (ℕ × ℕ)) (objs : List DetectedObject) :
    List DetectedObject :=
  match size? with
  | none => objs
  | some (w, h) =>
    objs.map fun o =>
      { o with
        bbox :=
          ⟨pyInt ((o.bbox.x_min * w : ℚ) / 1000),
           pyInt ((o.bbox.y_min * h : ℚ) / 1000),
           pyInt ((o.bbox.x_max * w : ℚ) / 1000),
           pyInt ((o.bbox.y_max * h : ℚ) / 1000)⟩ }

/-- The parsing pipeline of `SceneAnalyzer.analyze` on an already
JSON-decoded response: `_parse_response` for key presence, then
`_parse_objects` on the `objects` array, then `_parse_context`, then the
optional pixel rescaling. -/
def analyzeScene (r : RawResponse) (size? : Option (ℕ × ℕ)) :
    Except ParseError (List DetectedObject × SceneContext) :=
  match parseResponse r with
  | .error e => .error e
  | .ok (objs, ctx) =>
    match parseContext ctx with
    | .error e => .error e
    | .ok sc => .ok (applyImageSize size? (parseObjects objs), sc)

/-! Helper lemmas. -/

theorem pyInt_of_nonneg {q : ℚ} (h : 0 ≤ q) : pyInt q = ⌊q⌋ := by
  simp [pyInt, h]

theorem validateBbox_eq_true_iff (b0 b1 b2 b3 : ℚ) :
    validateBbox [b0, b1, b2, b3] = true ↔
      (0 ≤ b0 ∧ b0 ≤ 1 ∧ 0 ≤ b1 ∧ b1 ≤ 1 ∧ 0 ≤ b2 ∧ b2 ≤ 1 ∧ 0 ≤ b3 ∧ b3 ≤ 1 ∧
        b0 < b2 ∧ b1 < b3 ∧
        1 / 100 ≤ b2 - b0 ∧ 1 / 100 ≤ b3 - b1 ∧
        b2 - b0 ≤ 9 / 10 ∧ b3 - b1 ≤ 9 / 10) := by
  simp only [validateBbox]
  split_ifs with h1 h2 h3 h4
  · simp only [Bool.false_eq_true, false_iff]
    rintro ⟨-, -, -, -, -, -, -, -, -, -, hw, hh, -, -⟩
    rcases h3 with h | h <;> linarith
  · simp only [Bool.false_eq_true, false_iff]
    rintro ⟨-, -, -, -, -, -, -, -, -, -, -, -, hw, hh⟩
    rcases h4 with h | h <;> linarith
  · simp only [not_or, not_lt] at h3 h4
    simp only [true_iff]
    tauto
  · simp only [Bool.false_eq_true, false_iff]
    rintro ⟨-, -, -, -, -, -, -, -, ho1, ho2, -, -, -, -⟩
    exact h2 ⟨ho1, ho2⟩
  · simp only [Bool.false_eq_true, false_iff]
    rintro ⟨ha, hb, hc, hd, he, hf, hg, hh, -⟩
    exact h1 ⟨ha, hb, hc, hd, he, hf, hg, hh⟩

theorem validateBbox_eq_false_iff (b0 b1 b2 b3 : ℚ) :
    validateBbox [b0, b1, b2, b3] = false ↔
      (b0 < 0 ∨ 1 < b0 ∨ b1 < 0 ∨ 1 < b1 ∨ b2 < 0 ∨ 1 < b2 ∨ b3 < 0 ∨ 1 < b3 ∨
        b2 ≤ b0 ∨ b3 ≤ b1 ∨
        b2 - b0 < 1 / 100 ∨ b3 - b1 < 1 / 100 ∨
        9 / 10 < b2 - b0 ∨ 9 / 10 < b3 - b1) := by
  rw [Bool.eq_false_iff, Ne, validateBbox_eq_true_iff]
  constructor
  · intro h
    by_contra hc
    push_neg at hc
    exact h hc
  · intro h hc
    obtain ⟨p1, p2, p3, p4, p5, p6, p7, p8, p9, p10, p11, p12, p13, p14⟩ := hc
    rcases h with h | h | h | h | h | h | h | h | h | h | h | h | h | h <;> linarith

theorem parseObjects_cons (o : RawObject) (rest : List RawObject) :
    parseObjects (o :: rest) =
      match parseEntry o with
      | some d => d :: parseObjects rest
      | none => parseObjects rest := rfl

theorem parseObjects_cons_of_none {o : RawObject} (rest : List RawObject)
    (h : parseEntry o = none) :
    parseObjects (o :: rest) = parseObjects rest := by
  rw [parseObjects_cons, h]

theorem parseEntry_eq_some_inv {o : RawObject} {d : DetectedObject}
    (h : parseEntry o = some d) :
    ∃ b0 b1 b2 b3 ts t c, o.bbox? = some [b0, b1, b2, b3] ∧
      validateBbox [b0, b1, b2, b3] = true ∧
      o.type? = some ts ∧ ObjectType.ofString ts = some t ∧
      o.confidence? = some c ∧ 0 ≤ c ∧ c ≤ 1 ∧
      d = ⟨t, ⟨pyInt (b0 * 1000), pyInt (b1 * 1000),
               pyInt (b2 * 1000), pyInt (b3 * 1000)⟩, c, none⟩ := by
  unfold parseEntry at h
  split at h
  · exact absurd h (by simp)
  · rename_i b hb
    split at h
    · rename_i hv
      split at h
      · rename_i b0 b1 b2 b3 tail
        have htail : tail = [] := by
          cases tail with
          | nil => rfl
          | cons x xs => exact absurd hv (by simp [validateBbox])
        subst htail
        split at h
        · rename_i ts c hts hc
          split at h
          · exact absurd h (by simp)
          · rename_i t hot
            unfold DetectedObject.construct at h
            split at h
            · rename_i hcc
              cases h
              exact ⟨b0, b1, b2, b3, ts, t, c, hb, hv, hts, hot, hc,
                hcc.1, hcc.2, rfl⟩
            · exact absurd h (by simp)
        · exact absurd h (by simp)
      · exact absurd h (by simp)
    · exact absurd h (by simp)

theorem parseEntry_eq_none_of_skip (o : RawObject)
    (h : o.type? = none ∨ o.bbox? = none ∨ o.confidence? = none ∨
      (∃ ts, o.type? = some ts ∧ ObjectType.ofString ts = none) ∨
      (∃ b, o.bbox? = some b ∧ validateBbox b = false)) :
    parseEntry o = none := by
  cases hpe : parseEntry o with
  | none => rfl
  | some d =>
    obtain ⟨b0, b1, b2, b3, ts, t, c, hbb, hv, hts, hot, hc, -, -, -⟩ :=
      parseEntry_eq_some_inv hpe
    rcases h with h | h | h | ⟨ts', hts', hofs⟩ | ⟨b, hb, hvb⟩
    · rw [h] at hts; cases hts
    · rw [h] at hbb; cases hbb
    · rw [h] at hc; cases hc
    · rw [hts] at hts'
      cases hts'
      rw [hofs] at hot
      cases hot
    · rw [hbb] at hb
      cases hb
      rw [hv] at hvb
      cases hvb

theorem mem_parseObjects {objs : List RawObject} {d : DetectedObject}
    (h : d ∈ parseObjects objs) : ∃ o ∈ objs, parseEntry o = some d := by
  induction objs with
  | nil => exact absurd h (by simp [parseObjects])
  | cons o rest ih =>
    rw [parseObjects_cons] at h
    cases he : parseEntry o with
    | some d0 =>
      rw [he] at h
      rcases List.mem_cons.mp h with h | h
      · exact ⟨o, List.mem_cons_self o rest, by rw [he, h]⟩
      · obtain ⟨o', ho', hp⟩ := ih h
        exact ⟨o', List.mem_cons_of_mem o ho', hp⟩
    | none =>
      rw [he] at h
      obtain ⟨o', ho', hp⟩ := ih h
      exact ⟨o', List.mem_cons_of_mem o ho', hp⟩

/-! Claim theorems. -/

/-- C3 counterexample: constructing a `BoundingBox` with zero extent on
both axes succeeds, contradicting the claim that construction with
`x_min ≥ x_max` or `y_min ≥ y_max` fails. -/
theorem claim_C3_counterexample :
    BoundingBox.construct 0 0 0 0 = some ⟨0, 0, 0, 0⟩ := rfl

/-- C3 (amended): `BoundingBox` construction enforces no invariant at
all: it succeeds for any four integers — including zero or negative
extents and negative coordinates — storing them unchanged, with width
and height derived as the coordinate differences. -/
theorem claim_C3_amended (a b c d : ℤ) :
    BoundingBox.construct a b c d = some ⟨a, b, c, d⟩ ∧
      BoundingBox.width ⟨a, b, c, d⟩ = c - a ∧
      BoundingBox.height ⟨a, b, c, d⟩ = d - b :=
  ⟨rfl, rfl, rfl⟩

/-- C7: when no pixel target is supplied, the coordinate normalizer
returns the object list identical to the input (every object and every
bbox coordinate unchanged, still in millirange). -/
theorem claim_C7 (objs : List DetectedObject) :
    applyImageSize none objs = objs := rfl

/-- C8: for the confidence-carrying records `Prediction` and
`DetectedObject`, construction with a confidence outside the closed
interval `[0,1]` fails, and construction with a confidence inside
`[0,1]` stores that value unchanged. -/
theorem claim_C8 (t : ObjectType) (bb : BoundingBox)
    (st : Option TrafficLightState) (a : ActionType) (c : ℚ) :
    ((c < 0 ∨ 1 < c) →
      DetectedObject.construct t bb c st = none ∧
        Prediction.construct a c = none) ∧
    (0 ≤ c → c ≤ 1 →
      DetectedObject.construct t bb c st = some ⟨t, bb, c, st⟩ ∧
        Prediction.construct a c = some ⟨a, c⟩) := by
  constructor
  · intro h
    have hn : ¬(0 ≤ c ∧ c ≤ 1) := by
      rcases h with h | h
      · exact fun hc => absurd hc.1 (not_le.mpr h)
      · exact fun hc => absurd hc.2 (not_le.mpr h)
    simp [DetectedObject.construct, Prediction.construct, hn]
  · intro h1 h2
    simp [DetectedObject.construct, Prediction.construct, h1, h2]

/-- C8 witness: a confidence of `3/2` is rejected by both constructions
and a confidence of `1/2` is stored unchanged by both. -/
theorem claim_C8_witness :
    (DetectedObject.construct .vehicle ⟨0, 0, 10, 10⟩ (3 / 2) none = none ∧
      Prediction.construct .STOP (3 / 2) = none) ∧
    (DetectedObject.construct .vehicle ⟨0, 0, 10, 10⟩ (1 / 2) none =
        some ⟨.vehicle, ⟨0, 0, 10, 10⟩, 1 / 2, none⟩ ∧
      Prediction.construct .STOP (1 / 2) = some ⟨.STOP, 1 / 2⟩) :=
  ⟨(claim_C8 .vehicle ⟨0, 0, 10, 10⟩ none .STOP (3 / 2)).1
      (Or.inr (by norm_num)),
   (claim_C8 .vehicle ⟨0, 0, 10, 10⟩ none .STOP (1 / 2)).2
      (by norm_num) (by norm_num)⟩

/-- C4: in the scene-analysis JSON dialect, a missing `objects` key is
not an error — parsing succeeds and the object list defaults to empty —
while a missing `context` key fails with the structural error the spec's
taxonomy calls `MalformedResponse` (the source's
`SceneAnalysisError("Missing required 'context' field")`). -/
theorem claim_C4 :
    (∀ ctx : RawContext,
      parseResponse ⟨none, some ctx⟩ = .ok ([], ctx)) ∧
    (∀ objs? : Option (List RawObject),
      parseResponse ⟨objs?, none⟩ = .error .missingContext) ∧
    analyzeScene ⟨none, some ⟨"clear", "day", "highway"⟩⟩ none =
      .ok ([], ⟨.clear, "day", "highway"⟩) :=
  ⟨fun _ => rfl, fun _ => rfl, by decide⟩

unseal Rat.mul Rat.inv Rat.sub Rat.add in
/-- C5: with a pixel target `(width, height)`, every bbox coordinate of
every object is rescaled to `int(millirange_coord * dimension / 1000)`,
x-coordinates by the width and y-coordinates by the height, everything
else unchanged; in particular millirange bbox `(100,100,500,500)` at a
`(640,480)` target becomes `(64,48,320,240)`. -/
theorem claim_C5 :
    (∀ (w h : ℕ) (objs : List DetectedObject) (i : ℕ) (d : DetectedObject),
      (applyImageSize (some (w, h)) objs)[i]? = some d →
      ∃ o, objs[i]? = some o ∧ d.type = o.type ∧
        d.confidence = o.confidence ∧ d.state = o.state ∧
        d.bbox.x_min = pyInt ((o.bbox.x_min * w : ℚ) / 1000) ∧
        d.bbox.y_min = pyInt ((o.bbox.y_min * h : ℚ) / 1000) ∧
        d.bbox.x_max = pyInt ((o.bbox.x_max * w : ℚ) / 1000) ∧
        d.bbox.y_max = pyInt ((o.bbox.y_max * h : ℚ) / 1000)) ∧
    applyImageSize (some (640, 480))
        [⟨.vehicle, ⟨100, 100, 500, 500⟩, 9 / 10, none⟩] =
      [⟨.vehicle, ⟨64, 48, 320, 240⟩, 9 / 10, none⟩] := by
  constructor
  · intro w h objs i d hd
    simp only [applyImageSize, List.getElem?_map] at hd
    cases ho : objs[i]? with
    | none => rw [ho] at hd; exact absurd hd (by simp)
    | some o =>
      rw [ho] at hd
      simp only [Option.map_some'] at hd
      cases hd
      exact ⟨o, rfl, rfl, rfl, rfl, rfl, rfl, rfl, rfl⟩
  · decide

theorem takeDigits_of_all {ds : List Char} (h : ds.all Char.isDigit = true) :
    takeDigits ds = (ds, []) := by
  induction ds with
  | nil => rfl
  | cons c cs ih =>
    simp only [List.all_cons, Bool.and_eq_true] at h
    simp [takeDigits, h.1, ih h.2]

theorem reSearch_cons_of_found {α : Type} {lit : List Char}
    {k : List Char → Option α} {c : Char} {rest : List Char} {v : α}
    (hpre : List.isPrefixOf lit (c :: rest) = true)
    (hk : k (((c :: rest).drop lit.length).dropWhile pySpace) = some v) :
    reSearch lit k (c :: rest) = some v := by
  unfold reSearch
  rw [if_pos hpre, hk]

theorem searchConfidence_zero_frac (d : Char) (ds : List Char)
    (h2 : (d :: ds).all Char.isDigit = true) :
    searchConfidence ("Confidence: 0.".data ++ (d :: ds)) =
      some (fracOfDigits (d :: ds)) := by
  have hsplit : "Confidence: 0.".data ++ (d :: ds) =
      'C' :: 'o' :: 'n' :: 'f' :: 'i' :: 'd' :: 'e' :: 'n' :: 'c' :: 'e' :: ':' :: ' ' :: '0' :: '.' :: d :: ds := rfl
  rw [searchConfidence, hsplit]
  refine reSearch_cons_of_found (by rfl) ?_
  show tryNum ('0' :: '.' :: d :: ds) = some (fracOfDigits (d :: ds))
  simp [tryNum, takeDigits_of_all h2]

unseal Rat.mul Rat.inv Rat.sub Rat.add in
/-- C2 counterexample: the confidence regex `(0?\.\d+|1\.0|1)` does not
match the bare string `0`, so `Confidence: 0` fails to parse although
the claim says it succeeds; and on `Confidence: 1.5` the third
alternative matches the leading `1`, so parsing succeeds with value `1`
although the claim says it fails. -/
theorem claim_C2_counterexample :
    searchConfidence ("Confidence: 0".data) = none ∧
    searchConfidence ("Confidence: 1.5".data) = some 1 := by
  decide

unseal Rat.mul Rat.inv Rat.sub Rat.add in
/-- C2 (amended): confidence parsing succeeds on `0.xxx` decimal forms
(returning the numeric value unchanged), on `1.0` and on `1`; the bare
string `0` fails; `1.5` does not fail but parses as `1` (the regex
matches its leading `1`); `-0.1` and `abc` fail, surfacing as the
response-level parsing error. -/
theorem claim_C2_amended :
    (∀ (d : Char) (ds : List Char), (d :: ds).all Char.isDigit = true →
      searchConfidence ("Confidence: 0.".data ++ (d :: ds)) =
        some (fracOfDigits (d :: ds))) ∧
    searchConfidence ("Confidence: 1".data) = some 1 ∧
    searchConfidence ("Confidence: 1.0".data) = some 1 ∧
    searchConfidence ("Confidence: 0".data) = none ∧
    searchConfidence ("Confidence: 1.5".data) = some 1 ∧
    searchConfidence ("Confidence: -0.1".data) = none ∧
    searchConfidence ("Confidence: abc".data) = none ∧
    parseActionResponse "Action: STOP, Confidence: 0.85" =
      .ok ⟨.STOP, 17 / 20⟩ ∧
    parseActionResponse "Action: STOP, Confidence: 1.5" = .ok ⟨.STOP, 1⟩ ∧
    parseActionResponse "Action: STOP, Confidence: 0" =
      .error .responseParsing :=
  ⟨searchConfidence_zero_frac, by decide, by decide, by decide, by decide,
   by decide, by decide, by decide, by decide, by decide⟩

unseal Rat.mul Rat.inv Rat.sub Rat.add in
/-- C2 witness: the general `0.xxx` clause of the amended claim applied
to the digit string `85`. -/
theorem claim_C2_witness :
    searchConfidence ("Confidence: 0.".data ++ ['8', '5']) =
      some (fracOfDigits ['8', '5']) :=
  claim_C2_amended.1 '8' ['5'] (by decide)

unseal Rat.mul Rat.inv Rat.sub Rat.add in
/-- C6 counterexample: the multi-call direction parser accepts
`Angle: 400` unchanged — the produced `Direction` has angle `400`, which
does not lie in `[0,360)`, contradicting the claimed normalization. -/
theorem claim_C6_counterexample :
    parseDirection "Angle: 400 Action: STOP Confidence: 0.9" =
      .ok ⟨400, .STOP, 9 / 10⟩ ∧ ¬((400 : ℚ) < 360) := by
  decide

unseal Rat.mul Rat.inv Rat.sub Rat.add in
/-- C6 (amended): the multi-call parser performs no `[0,360)`
normalization on the angle: the angle is parsed as a bare non-negative
integer (`Angle:\s*(\d+)`), so every produced `Direction` has a
non-negative angle, but angles of `360` or more pass through unchanged. -/
theorem claim_C6_amended :
    (∀ (content : String) (d : Direction),
      parseDirection content = .ok d → 0 ≤ d.angle) ∧
    (∃ (content : String) (d : Direction),
      parseDirection content = .ok d ∧ 360 ≤ d.angle) := by
  constructor
  · intro content d h
    unfold parseDirection at h
    split at h
    · rename_i ang act conf
      split at h
      · exact absurd h (by simp)
      · rename_i a hact
        unfold Direction.construct at h
        split at h
        · exact absurd h (by simp)
        · rename_i d0 heq
          cases h
          split at heq
          · cases heq
            exact Nat.cast_nonneg _
          · exact absurd heq (by simp)
    · exact absurd h (by simp)
  · exact ⟨"Angle: 400 Action: STOP Confidence: 0.9", ⟨400, .STOP, 9 / 10⟩,
      by decide, by norm_num⟩

unseal Rat.mul Rat.inv Rat.sub Rat.add in
/-- C6 witness: the non-negativity clause of the amended claim applied
to the concrete response with angle 400. -/
theorem claim_C6_witness :
    0 ≤ (Direction.mk 400 .STOP (9 / 10)).angle :=
  claim_C6_amended.1 "Angle: 400 Action: STOP Confidence: 0.9"
    ⟨400, .STOP, 9 / 10⟩ (by decide)

unseal Rat.mul Rat.inv Rat.sub Rat.add in
/-- C1: an `objects` entry is rejected by the geometric bbox validation
exactly when the bbox does not have exactly 4 coordinates, or a
coordinate leaves `[0,1]`, or `x_min ≥ x_max` or `y_min ≥ y_max`, or
width or height is below `0.01` or above `0.9`; a rejected entry is
silently skipped while the rest of the response still succeeds — in
particular bbox `[0.1,0.1,0.105,0.5]` (width `0.005`) and bbox
`[0,0,1,1]` (full image) are both dropped without failing the response. -/
theorem claim_C1 :
    (∀ b0 b1 b2 b3 : ℚ, validateBbox [b0, b1, b2, b3] = false ↔
      (b0 < 0 ∨ 1 < b0 ∨ b1 < 0 ∨ 1 < b1 ∨ b2 < 0 ∨ 1 < b2 ∨ b3 < 0 ∨ 1 < b3 ∨
        b2 ≤ b0 ∨ b3 ≤ b1 ∨
        b2 - b0 < 1 / 100 ∨ b3 - b1 < 1 / 100 ∨
        9 / 10 < b2 - b0 ∨ 9 / 10 < b3 - b1)) ∧
    (∀ b : List ℚ, b.length ≠ 4 → validateBbox b = false) ∧
    (∀ (o : RawObject) (b : List ℚ) (rest : List RawObject),
      o.bbox? = some b → validateBbox b = false →
      parseObjects (o :: rest) = parseObjects rest) ∧
    analyzeScene
        ⟨some [⟨some "vehicle", some [1 / 10, 1 / 10, 21 / 200, 1 / 2], some (9 / 10)⟩,
               ⟨some "vehicle", some [1 / 10, 1 / 10, 1 / 2, 1 / 2], some (9 / 10)⟩],
         some ⟨"clear", "day", "highway"⟩⟩ none =
      .ok ([⟨.vehicle, ⟨100, 100, 500, 500⟩, 9 / 10, none⟩],
           ⟨.clear, "day", "highway"⟩) ∧
    analyzeScene
        ⟨some [⟨some "vehicle", some [0, 0, 1, 1], some (9 / 10)⟩],
         some ⟨"clear", "day", "highway"⟩⟩ none =
      .ok ([], ⟨.clear, "day", "highway"⟩) := by
  refine ⟨validateBbox_eq_false_iff, ?_, ?_, by decide, by decide⟩
  · intro b hlen
    match b, hlen with
    | [], _ => rfl
    | [x0], _ => rfl
    | [x0, x1], _ => rfl
    | [x0, x1, x2], _ => rfl
    | [x0, x1, x2, x3], hlen => exact absurd rfl hlen
    | x0 :: x1 :: x2 :: x3 :: x4 :: t, _ => rfl
  · intro o b rest hb hv
    exact parseObjects_cons_of_none rest
      (parseEntry_eq_none_of_skip o (Or.inr (Or.inr (Or.inr (Or.inr ⟨b, hb, hv⟩)))))

unseal Rat.mul Rat.inv Rat.sub Rat.add in
/-- C1 witness: a one-element bbox fails validation, and an entry whose
bbox `[0,0,1,1]` fails validation is skipped by the object-list parser. -/
theorem claim_C1_witness :
    validateBbox [(1 : ℚ) / 2] = false ∧
    parseObjects [⟨some "vehicle", some [0, 0, 1, 1], some (9 / 10)⟩] =
      parseObjects [] :=
  ⟨claim_C1.2.1 [(1 : ℚ) / 2] (by decide),
   claim_C1.2.2.1 ⟨some "vehicle", some [0, 0, 1, 1], some (9 / 10)⟩
     [0, 0, 1, 1] [] rfl (by decide)⟩

/-- C9: every object produced by the object-list parser (before pixel
rescaling) has millirange bounds `0 ≤ x_min < x_max ≤ 1000` and
`0 ≤ y_min < y_max ≤ 1000`, and extents `x_max - x_min ≥ 9` and
`y_max - y_min ≥ 9` (the minimum-size check survives truncation). -/
theorem claim_C9 (objs : List RawObject) (d : DetectedObject)
    (h : d ∈ parseObjects objs) :
    0 ≤ d.bbox.x_min ∧ d.bbox.x_min < d.bbox.x_max ∧ d.bbox.x_max ≤ 1000 ∧
    0 ≤ d.bbox.y_min ∧ d.bbox.y_min < d.bbox.y_max ∧ d.bbox.y_max ≤ 1000 ∧
    9 ≤ BoundingBox.width d.bbox ∧ 9 ≤ BoundingBox.height d.bbox := by
  obtain ⟨o, -, hp⟩ := mem_parseObjects h
  obtain ⟨b0, b1, b2, b3, ts, t, c, -, hv, -, -, -, -, -, hd⟩ :=
    parseEntry_eq_some_inv hp
  rw [validateBbox_eq_true_iff] at hv
  obtain ⟨h00, h01, h10, h11, h20, h21, h30, h31, hlt1, hlt2, hw1, hh1, -, -⟩ := hv
  have n0 : (0 : ℚ) ≤ b0 * 1000 := by linarith
  have n1 : (0 : ℚ) ≤ b1 * 1000 := by linarith
  have n2 : (0 : ℚ) ≤ b2 * 1000 := by linarith
  have n3 : (0 : ℚ) ≤ b3 * 1000 := by linarith
  have fx0 : (0 : ℤ) ≤ ⌊b0 * 1000⌋ := Int.le_floor.mpr (by push_cast; linarith)
  have fy0 : (0 : ℤ) ≤ ⌊b1 * 1000⌋ := Int.le_floor.mpr (by push_cast; linarith)
  have fx1 : ⌊b2 * 1000⌋ ≤ 1000 := by
    have hle : ⌊b2 * 1000⌋ ≤ ⌊((1000 : ℤ) : ℚ)⌋ :=
      Int.floor_le_floor (by push_cast; linarith)
    simpa using hle
  have fy1 : ⌊b3 * 1000⌋ ≤ 1000 := by
    have hle : ⌊b3 * 1000⌋ ≤ ⌊((1000 : ℤ) : ℚ)⌋ :=
      Int.floor_le_floor (by push_cast; linarith)
    simpa using hle
  have fdx : ⌊b0 * 1000⌋ + 10 ≤ ⌊b2 * 1000⌋ := by
    have : ⌊b0 * 1000 + ((10 : ℤ) : ℚ)⌋ ≤ ⌊b2 * 1000⌋ :=
      Int.floor_le_floor (by push_cast; linarith)
    rwa [Int.floor_add_int] at this
  have fdy : ⌊b1 * 1000⌋ + 10 ≤ ⌊b3 * 1000⌋ := by
    have : ⌊b1 * 1000 + ((10 : ℤ) : ℚ)⌋ ≤ ⌊b3 * 1000⌋ :=
      Int.floor_le_floor (by push_cast; linarith)
    rwa [Int.floor_add_int] at this
  subst hd
  simp only [BoundingBox.width, BoundingBox.height,
    pyInt_of_nonneg n0, pyInt_of_nonneg n1, pyInt_of_nonneg n2,
    pyInt_of_nonneg n3]
  refine ⟨fx0, by omega, fx1, fy0, by omega, fy1, by omega, by omega⟩

unseal Rat.mul Rat.inv Rat.sub Rat.add in
/-- C9 witness: the general millirange-bounds theorem applied to the
object parsed from bbox `[0.1,0.1,0.5,0.5]`. -/
theorem claim_C9_witness :
    0 ≤ (DetectedObject.mk .vehicle ⟨100, 100, 500, 500⟩ (9 / 10) none).bbox.x_min ∧
    (DetectedObject.mk .vehicle ⟨100, 100, 500, 500⟩ (9 / 10) none).bbox.x_min <
      (DetectedObject.mk .vehicle ⟨100, 100, 500, 500⟩ (9 / 10) none).bbox.x_max ∧
    (DetectedObject.mk .vehicle ⟨100, 100, 500, 500⟩ (9 / 10) none).bbox.x_max ≤ 1000 ∧
    0 ≤ (DetectedObject.mk .vehicle ⟨100, 100, 500, 500⟩ (9 / 10) none).bbox.y_min ∧
    (DetectedObject.mk .vehicle ⟨100, 100, 500, 500⟩ (9 / 10) none).bbox.y_min <
      (DetectedObject.mk .vehicle ⟨100, 100, 500, 500⟩ (9 / 10) none).bbox.y_max ∧
    (DetectedObject.mk .vehicle ⟨100, 100, 500, 500⟩ (9 / 10) none).bbox.y_max ≤ 1000 ∧
    9 ≤ BoundingBox.width (DetectedObject.mk .vehicle ⟨100, 100, 500, 500⟩ (9 / 10) none).bbox ∧
    9 ≤ BoundingBox.height (DetectedObject.mk .vehicle ⟨100, 100, 500, 500⟩ (9 / 10) none).bbox :=
  claim_C9 [⟨some "vehicle", some [1 / 10, 1 / 10, 1 / 2, 1 / 2], some (9 / 10)⟩]
    ⟨.vehicle, ⟨100, 100, 500, 500⟩, 9 / 10, none⟩ (by decide)

/-- C10: the object-list parser is total over entries with missing keys
or unrecognized type strings — such entries are skipped, never failing
the whole call — and the accepted objects form an order-preserving
subsequence of the per-entry parses of the input array. -/
theorem claim_C10 :
    (∀ (o : RawObject) (rest : List RawObject),
      (o.type? = none ∨ o.bbox? = none ∨ o.confidence? = none ∨
        ∃ ts, o.type? = some ts ∧ ObjectType.ofString ts = none) →
      parseObjects (o :: rest) = parseObjects rest) ∧
    (∀ objs : List RawObject,
      List.Sublist ((parseObjects objs).map some) (objs.map parseEntry)) := by
  constructor
  · intro o rest h
    refine parseObjects_cons_of_none rest (parseEntry_eq_none_of_skip o ?_)
    rcases h with h | h | h | h
    · exact Or.inl h
    · exact Or.inr (Or.inl h)
    · exact Or.inr (Or.inr (Or.inl h))
    · exact Or.inr (Or.inr (Or.inr (Or.inl h)))
  · intro objs
    induction objs with
    | nil => simp [parseObjects]
    | cons o rest ih =>
      rw [parseObjects_cons, List.map_cons]
      cases hpe : parseEntry o with
      | some d =>
        simp only [List.map_cons]
        exact List.Sublist.cons₂ (some d) ih
      | none => exact List.Sublist.cons (none) ih

unseal Rat.mul Rat.inv Rat.sub Rat.add in
/-- C10 witness: an entry with type string `banana` is skipped, and the
subsequence property at a concrete two-entry array. -/
theorem claim_C10_witness :
    parseObjects [⟨some "banana", some [1 / 10, 1 / 10, 1 / 2, 1 / 2], some (9 / 10)⟩] =
      parseObjects [] ∧
    List.Sublist
      ((parseObjects
          [⟨some "banana", some [1 / 10, 1 / 10, 1 / 2, 1 / 2], some (9 / 10)⟩,
           ⟨some "vehicle", some [1 / 10, 1 / 10, 1 / 2, 1 / 2], some (9 / 10)⟩]).map some)
      ([⟨some "banana", some [1 / 10, 1 / 10, 1 / 2, 1 / 2], some (9 / 10)⟩,
        ⟨some "vehicle", some [1 / 10, 1 / 10, 1 / 2, 1 / 2], some (9 / 10)⟩].map parseEntry) :=
  ⟨claim_C10.1 ⟨some "banana", some [1 / 10, 1 / 10, 1 / 2, 1 / 2], some (9 / 10)⟩ []
      (Or.inr (Or.inr (Or.inr ⟨"banana", rfl, rfl⟩))),
   claim_C10.2 _⟩

unseal Rat.mul Rat.inv Rat.sub Rat.add in
/-- C5 witness: the general rescaling formula applied at index 0 of a
one-object list with millirange bbox `(100,100,500,500)` and target
`(640,480)`. -/
theorem claim_C5_witness :
    ∃ o, ([(⟨.vehicle, ⟨100, 100, 500, 500⟩, 9 / 10, none⟩ : DetectedObject)])[0]? =
        some o ∧
      (⟨.vehicle, ⟨64, 48, 320, 240⟩, 9 / 10, none⟩ : DetectedObject).type = o.type ∧
      (⟨.vehicle, ⟨64, 48, 320, 240⟩, 9 / 10, none⟩ : DetectedObject).confidence =
        o.confidence ∧
      (⟨.vehicle, ⟨64, 48, 320, 240⟩, 9 / 10, none⟩ : DetectedObject).state = o.state ∧
      (⟨.vehicle, ⟨64, 48, 320, 240⟩, 9 / 10, none⟩ : DetectedObject).bbox.x_min =
        pyInt ((o.bbox.x_min * (640 : ℕ) : ℚ) / 1000) ∧
      (⟨.vehicle, ⟨64, 48, 320, 240⟩, 9 / 10, none⟩ : DetectedObject).bbox.y_min =
        pyInt ((o.bbox.y_min * (480 : ℕ) : ℚ) / 1000) ∧
      (⟨.vehicle, ⟨64, 48, 320, 240⟩, 9 / 10, none⟩ : DetectedObject).bbox.x_max =
        pyInt ((o.bbox.x_max * (640 : ℕ) : ℚ) / 1000) ∧
      (⟨.vehicle, ⟨64, 48, 320, 240⟩, 9 / 10, none⟩ : DetectedObject).bbox.y_max =
        pyInt ((o.bbox.y_max * (480 : ℕ) : ℚ) / 1000) :=
  claim_C5.1 640 480 [⟨.vehicle, ⟨100, 100, 500, 500⟩, 9 / 10, none⟩] 0
    ⟨.vehicle, ⟨64, 48, 320, 240⟩, 9 / 10, none⟩ (by decide)
